import Mathlib

/-!
Verification of the Conan packaging recipe in `src/conanfile.py`
(class `AxidevIoRecipe`).

The recipe is declarative packaging metadata: a handful of string
attributes, three lifecycle callbacks (`layout`, `build`, `package`)
that each delegate to the CMake helper, and a `package_info` callback
that writes three literal strings into the `cpp_info` metadata object.

We embed it as:
  * `Recipe`      — the class attributes (`name`, `version`, `package_type`,
                    `settings`, `generators`) together with the `cpp_info`
                    metadata object;
  * `CppInfo`     — the metadata object, whose `set_property` follows
                    Python-dict assignment semantics (replace in place if
                    the key is present, append otherwise);
  * action traces — each delegating callback is embedded as the ordered
                    list of delegated build-tool operations it performs,
                    and `runDelegated` runs such a trace against an
                    arbitrary (fallible) build tool, which makes the
                    error-propagation behaviour provable.
-/

/-- A delegated operation on the external build tool (the CMake helper). -/
inductive BuildAction where
  | cmakeLayout
  | cmakeConfigure
  | cmakeBuild
  | cmakeInstall
deriving DecidableEq, Repr

/-- Python-dict assignment on an association list kept in insertion
order: if the key is present every binding of it is overwritten in
place, otherwise the new binding is appended at the end. -/
def dictSet (m : List (String × String)) (k v : String) :
    List (String × String) :=
  if m.any (fun p => p.1 == k) then
    m.map (fun p => if p.1 == k then (k, v) else p)
  else m ++ [(k, v)]

/-- The `cpp_info` metadata object attached to a recipe: the linkable
library name list, the property map, and the remaining directory /
flag fields of the metadata object (which `package_info` never
touches). -/
structure CppInfo where
  includedirs : List String
  libdirs : List String
  bindirs : List String
  libs : List String
  system_libs : List String
  defines : List String
  cflags : List String
  cxxflags : List String
  sharedlinkflags : List String
  exelinkflags : List String
  frameworks : List String
  properties : List (String × String)
deriving DecidableEq, Repr

/-- The fresh `cpp_info` object a newly constructed recipe carries. -/
def CppInfo.fresh : CppInfo :=
  { includedirs := ["include"]
    libdirs := ["lib"]
    bindirs := ["bin"]
    libs := []
    system_libs := []
    defines := []
    cflags := []
    cxxflags := []
    sharedlinkflags := []
    exelinkflags := []
    frameworks := []
    properties := [] }

/-- `cpp_info.set_property(name, value)`. -/
def CppInfo.set_property (c : CppInfo) (k v : String) : CppInfo :=
  { c with properties := dictSet c.properties k v }

/-- Look a property up in the metadata object. -/
def CppInfo.get_property (c : CppInfo) (k : String) : Option String :=
  (c.properties.find? (fun p => p.1 == k)).map Prod.snd

/-- A recipe object: the class attributes of a Conan recipe plus its
`cpp_info` metadata object. -/
structure Recipe where
  name : String
  version : String
  package_type : String
  settings : List String
  generators : List String
  cpp_info : CppInfo
deriving DecidableEq, Repr

/-- A freshly constructed `AxidevIoRecipe` object: the class attributes
from `src/conanfile.py` lines 6–12, with a fresh metadata object. -/
def AxidevIoRecipe.fresh : Recipe :=
  { name := "axidev-io"
    version := "0.3.0"
    package_type := "library"
    settings := ["os", "compiler", "build_type", "arch"]
    generators := ["CMakeDeps", "CMakeToolchain"]
    cpp_info := CppInfo.fresh }

/-- `layout(self)`: the single delegated call `cmake_layout(self)`. -/
def AxidevIoRecipe.layoutActions : List BuildAction :=
  [BuildAction.cmakeLayout]

/-- `build(self)`: `cmake.configure()` then `cmake.build()`, nothing
else. -/
def AxidevIoRecipe.buildActions : List BuildAction :=
  [BuildAction.cmakeConfigure, BuildAction.cmakeBuild]

/-- `package(self)`: the single delegated call `cmake.install()`. -/
def AxidevIoRecipe.packageActions : List BuildAction :=
  [BuildAction.cmakeInstall]

/-- The effect of `package_info(self)` on the `cpp_info` object
(`src/conanfile.py` lines 30–33): assign the libs list and set the two
CMake properties, in source order. -/
def packageInfoCpp (c : CppInfo) : CppInfo :=
  (({ c with libs := ["axidev_io"] }).set_property
      "cmake_target_name" "axidev::io").set_property
    "cmake_file_name" "axidev-io"

/-- `package_info(self)` acting on the whole recipe object. -/
def AxidevIoRecipe.package_info (r : Recipe) : Recipe :=
  { r with cpp_info := packageInfoCpp r.cpp_info }

/-- Run a trace of delegated build-tool calls against a fallible build
tool, stopping at (and returning unchanged) the first error — the
recipe code wraps none of its delegated calls in any handler. -/
def runDelegated (tool : BuildAction → Except String Unit) :
    List BuildAction → Except String Unit
  | [] => Except.ok ()
  | a :: rest =>
    match tool a with
    | Except.error e => Except.error e
    | Except.ok _ => runDelegated tool rest

/-- Modelled from the spec: the CMake build files of the `axidev_io`
library are not part of the excerpt; per the spec's invariant (and the
recipe's own comment), the underlying build target / artifact base
name is `axidev_io` and its namespaced alias target is `axidev::io`. -/
def axidevBuildTargetName : String := "axidev_io"

/-- Modelled from the spec: the namespaced CMake alias of the
`axidev_io` build target. -/
def axidevAliasTargetName : String := "axidev::io"

/-- The literal strings in which, per the spec, the two recipes of the
repository differ: package name, version, library artifact name and
target alias. -/
structure RecipeLiterals where
  name : String
  version : String
  libName : String
  targetAlias : String
deriving DecidableEq, Repr

/-- The common shape of the repository's recipes, instantiated at a
record of literal strings: all other attributes are fixed. -/
def recipeOf (L : RecipeLiterals) : Recipe :=
  { name := L.name
    version := L.version
    package_type := "library"
    settings := ["os", "compiler", "build_type", "arch"]
    generators := ["CMakeDeps", "CMakeToolchain"]
    cpp_info := CppInfo.fresh }

/-- The common shape of the recipes' `package_info` callback,
instantiated at the literal strings (the CMake config-file name is the
package name, as in the recipe present in the source). -/
def packageInfoCppOf (L : RecipeLiterals) (c : CppInfo) : CppInfo :=
  (({ c with libs := [L.libName] }).set_property
      "cmake_target_name" L.targetAlias).set_property
    "cmake_file_name" L.name

/-- The literal strings of the `axidev-io` recipe, read off
`src/conanfile.py`. -/
def axidevLiterals : RecipeLiterals :=
  { name := "axidev-io"
    version := "0.3.0"
    libName := "axidev_io"
    targetAlias := "axidev::io" }

/-- Modelled from the spec: the second recipe file (`typr-io`) is not
in the excerpt; the spec fixes its package name and, via the naming
convention, its artifact name `typr_io` and alias `typr::io`, but not
its version, which therefore stays a parameter. -/
def typrLiterals (version : String) : RecipeLiterals :=
  { name := "typr-io"
    version := version
    libName := "typr_io"
    targetAlias := "typr::io" }

/-- Modelled from the spec: the repository consists of exactly the two
recipe files, `axidev-io` and `typr-io`, side by side. -/
def repositoryRecipes (typrVersion : String) : List Recipe :=
  [recipeOf axidevLiterals, recipeOf (typrLiterals typrVersion)]

/-- Split a character list at every dot. -/
def splitDots : List Char → List (List Char)
  | [] => [[]]
  | c :: cs =>
    if c = '.' then [] :: splitDots cs
    else
      match splitDots cs with
      | [] => [[c]]
      | g :: gs => (c :: g) :: gs

/-- A semantic-version string: three nonempty dot-separated runs of
decimal digits. -/
def isSemVer (s : String) : Bool :=
  match splitDots s.data with
  | [a, b, c] =>
    !a.isEmpty && !b.isEmpty && !c.isEmpty &&
      a.all Char.isDigit && b.all Char.isDigit && c.all Char.isDigit
  | _ => false

/-- `find?` on a cons whose head satisfies the predicate. -/
theorem find_cons_true {α : Type} (f : α → Bool) (a : α) (l : List α)
    (h : f a = true) : List.find? f (a :: l) = some a := by
  simp [List.find?, h]

/-- `find?` on a cons whose head fails the predicate. -/
theorem find_cons_false {α : Type} (f : α → Bool) (a : α) (l : List α)
    (h : f a = false) : List.find? f (a :: l) = List.find? f l := by
  simp [List.find?, h]

/-- Overwriting every binding of a present key: the first lookup of
that key now yields the new binding. -/
theorem find_map_overwrite (m : List (String × String)) (k v : String)
    (hmem : m.any (fun p => p.1 == k) = true) :
    (m.map (fun p => if p.1 == k then (k, v) else p)).find?
        (fun p => p.1 == k) = some (k, v) := by
  induction m with
  | nil => simp at hmem
  | cons p m ih =>
    by_cases hp : (p.1 == k) = true
    · simp only [List.map_cons, if_pos hp]
      exact find_cons_true (fun p => p.1 == k) (k, v) _ (by simp)
    · simp only [List.any_cons, hp, Bool.false_or] at hmem
      simp only [List.map_cons, if_neg hp]
      rw [find_cons_false (fun p => p.1 == k) p _ (by simpa using hp)]
      exact ih hmem

/-- Overwriting the bindings of one key leaves lookups of any other key
unchanged. -/
theorem find_map_other (m : List (String × String)) (k v k' : String)
    (hk : k' ≠ k) :
    (m.map (fun p => if p.1 == k then (k, v) else p)).find?
        (fun p => p.1 == k') = m.find? (fun p => p.1 == k') := by
  induction m with
  | nil => rfl
  | cons p m ih =>
    by_cases hp : (p.1 == k) = true
    · have hpk : p.1 = k := by simpa using hp
      have h1 : (((k, v) : String × String).1 == k') = false := by
        simpa using fun h => hk h.symm
      have h2 : (p.1 == k') = false := by
        simpa [hpk] using fun h => hk h.symm
      simp only [List.map_cons, if_pos hp]
      rw [find_cons_false (fun p => p.1 == k') (k, v) _ h1,
        find_cons_false (fun p => p.1 == k') p _ h2, ih]
    · simp only [List.map_cons, if_neg hp]
      by_cases hp' : (p.1 == k') = true
      · rw [find_cons_true (fun p => p.1 == k') p _ hp',
          find_cons_true (fun p => p.1 == k') p _ hp']
      · rw [find_cons_false (fun p => p.1 == k') p _ (by simpa using hp'),
          find_cons_false (fun p => p.1 == k') p _ (by simpa using hp'),
          ih]

/-- Appending a binding for an absent key: lookup of that key now
yields the appended binding. -/
theorem find_append_self (m : List (String × String)) (k v : String)
    (hmem : m.any (fun p => p.1 == k) = false) :
    (m ++ [(k, v)]).find? (fun p => p.1 == k) = some (k, v) := by
  induction m with
  | nil => exact find_cons_true (fun p => p.1 == k) (k, v) _ (by simp)
  | cons p m ih =>
    simp only [List.any_cons, Bool.or_eq_false_iff] at hmem
    simp only [List.cons_append]
    rw [find_cons_false (fun p => p.1 == k) p _ hmem.1]
    exact ih hmem.2

/-- Appending a binding for one key leaves lookups of any other key
unchanged. -/
theorem find_append_other (m : List (String × String)) (k v k' : String)
    (hk : k' ≠ k) :
    (m ++ [(k, v)]).find? (fun p => p.1 == k') =
      m.find? (fun p => p.1 == k') := by
  rw [List.find?_append]
  cases hfind : m.find? (fun p => p.1 == k') with
  | some p => simp
  | none =>
    have h1 : (((k, v) : String × String).1 == k') = false := by
      simpa using fun h => hk h.symm
    simp [find_cons_false (fun p => p.1 == k') (k, v) [] h1]

/-- Property lookup after a dict assignment: the assigned key now maps
to the assigned value, every other key is untouched. -/
theorem find_dictSet (m : List (String × String)) (k v k' : String) :
    (dictSet m k v).find? (fun p => p.1 == k') =
      if k' = k then
        some (k, v)
      else m.find? (fun p => p.1 == k') := by
  by_cases hk : k' = k
  · subst hk
    simp only [if_pos rfl]
    unfold dictSet
    by_cases hmem : m.any (fun p => p.1 == k') = true
    · rw [if_pos hmem]
      exact find_map_overwrite m k' v hmem
    · rw [if_neg hmem]
      have hmem' : m.any (fun p => p.1 == k') = false := by
        simp only [Bool.not_eq_true] at hmem
        exact hmem
      exact find_append_self m k' v hmem'
  · simp only [if_neg hk]
    unfold dictSet
    by_cases hmem : m.any (fun p => p.1 == k) = true
    · rw [if_pos hmem]
      exact find_map_other m k v k' hk
    · rw [if_neg hmem]
      exact find_append_other m k v k' hk

/-- `get_property` after `set_property`: the set key reads back the set
value, any other key is unchanged. -/
theorem get_set_property (c : CppInfo) (k v k' : String) :
    (c.set_property k v).get_property k' =
      if k' = k then some v else c.get_property k' := by
  unfold CppInfo.set_property CppInfo.get_property
  simp only [find_dictSet]
  by_cases h : k' = k <;> simp [h]

/-- `package_info` always publishes the single library name
`axidev_io`. -/
theorem packageInfoCpp_libs (c : CppInfo) :
    (packageInfoCpp c).libs = ["axidev_io"] := rfl

/-- `package_info` always publishes `cmake_target_name` as
`axidev::io`. -/
theorem packageInfoCpp_target (c : CppInfo) :
    (packageInfoCpp c).get_property "cmake_target_name" =
      some "axidev::io" := by
  unfold packageInfoCpp
  rw [get_set_property, if_neg (by decide), get_set_property, if_pos rfl]

/-- `package_info` always publishes `cmake_file_name` as
`axidev-io`. -/
theorem packageInfoCpp_file (c : CppInfo) :
    (packageInfoCpp c).get_property "cmake_file_name" =
      some "axidev-io" := by
  unfold packageInfoCpp
  rw [get_set_property, if_pos rfl]

/-- `package_info` leaves every property other than the two CMake
properties untouched. -/
theorem packageInfoCpp_other (c : CppInfo) (k : String)
    (h₁ : k ≠ "cmake_target_name") (h₂ : k ≠ "cmake_file_name") :
    (packageInfoCpp c).get_property k = c.get_property k := by
  unfold packageInfoCpp
  rw [get_set_property, if_neg h₂, get_set_property, if_neg h₁]
  rfl

/-- C1: the string placed in `cpp_info.libs` by `package_info` is the
underscore form "axidev_io" and equals the underlying CMake build
target's artifact base name, while the `cmake_target_name` property
set by the same `package_info` is the namespaced alias form
"axidev::io"; the two differ exactly in replacing the underscore
separator by "::". -/
theorem spec_C1_libs_match_build_target :
    (∀ c : CppInfo,
      (packageInfoCpp c).libs = [axidevBuildTargetName] ∧
      (packageInfoCpp c).get_property "cmake_target_name" =
        some axidevAliasTargetName) ∧
    axidevBuildTargetName = "axidev" ++ "_" ++ "io" ∧
    axidevAliasTargetName = "axidev" ++ "::" ++ "io" :=
  ⟨fun c => ⟨packageInfoCpp_libs c, packageInfoCpp_target c⟩, rfl, rfl⟩

/-- C2: the repository consists of exactly two recipe instances side by
side, both instances of the one shape `recipeOf` / `packageInfoCppOf`
(same attributes, same callbacks), differing only in the literal
strings: package name, version, library artifact name and target
alias; the recipe present in the source is the shape instantiated at
the `axidev-io` literals. -/
theorem spec_C2_two_recipes_one_shape :
    ∀ typrVersion : String,
      (repositoryRecipes typrVersion).length = 2 ∧
      repositoryRecipes typrVersion =
        [recipeOf axidevLiterals, recipeOf (typrLiterals typrVersion)] ∧
      recipeOf axidevLiterals = AxidevIoRecipe.fresh ∧
      (∀ c : CppInfo,
        packageInfoCppOf axidevLiterals c = packageInfoCpp c) ∧
      (∀ L₁ L₂ : RecipeLiterals,
        (recipeOf L₁).package_type = (recipeOf L₂).package_type ∧
        (recipeOf L₁).settings = (recipeOf L₂).settings ∧
        (recipeOf L₁).generators = (recipeOf L₂).generators ∧
        (recipeOf L₁).cpp_info = (recipeOf L₂).cpp_info) ∧
      (∀ L : RecipeLiterals, ∀ c : CppInfo,
        (packageInfoCppOf L c).libs = [L.libName] ∧
        (packageInfoCppOf L c).get_property "cmake_target_name" =
          some L.targetAlias ∧
        (packageInfoCppOf L c).get_property "cmake_file_name" =
          some L.name) ∧
      axidevLiterals.name = "axidev-io" ∧
      (typrLiterals typrVersion).name = "typr-io" := by
  intro typrVersion
  refine ⟨rfl, rfl, rfl, fun c => rfl, fun L₁ L₂ => ⟨rfl, rfl, rfl, rfl⟩,
    fun L c => ⟨rfl, ?_, ?_⟩, rfl, rfl⟩
  · unfold packageInfoCppOf
    rw [get_set_property, if_neg (by decide), get_set_property, if_pos rfl]
  · unfold packageInfoCppOf
    rw [get_set_property, if_pos rfl]

/-- C2 witness: the two-recipe list at a concrete `typr-io` version. -/
theorem spec_C2_two_recipes_one_shape_witness :
    (repositoryRecipes "1.0.0").length = 2 :=
  (spec_C2_two_recipes_one_shape "1.0.0").1

/-- C3: the recipe's `name` and `version` attributes are the non-empty
strings "axidev-io" and "0.3.0", and the version is a semantic version
string. -/
theorem spec_C3_name_version :
    AxidevIoRecipe.fresh.name = "axidev-io" ∧
    AxidevIoRecipe.fresh.version = "0.3.0" ∧
    AxidevIoRecipe.fresh.name ≠ "" ∧
    AxidevIoRecipe.fresh.version ≠ "" ∧
    isSemVer AxidevIoRecipe.fresh.version = true :=
  ⟨rfl, rfl, by decide, by decide, by decide⟩

/-- C4: the recipe's `settings` attribute is exactly the four-element
collection (os, compiler, build_type, arch), in that order. -/
theorem spec_C4_settings :
    AxidevIoRecipe.fresh.settings =
      ["os", "compiler", "build_type", "arch"] ∧
    AxidevIoRecipe.fresh.settings.length = 4 :=
  ⟨rfl, rfl⟩

/-- C5: the recipe's `package_type` attribute is the string
"library". -/
theorem spec_C5_package_type :
    AxidevIoRecipe.fresh.package_type = "library" := rfl

/-- C6: `build()` configures and then builds, in that order and nothing
else; `package()` performs the single install of the build outputs. -/
theorem spec_C6_build_then_package :
    AxidevIoRecipe.buildActions =
      [BuildAction.cmakeConfigure, BuildAction.cmakeBuild] ∧
    AxidevIoRecipe.packageActions = [BuildAction.cmakeInstall] :=
  ⟨rfl, rfl⟩

/-- C7: no callback validates, catches or translates: an error raised
by any delegated build-tool call propagates unchanged to the caller,
and every error a callback returns is the unchanged error of one of
its delegated calls. -/
theorem spec_C7_error_propagation
    (tool : BuildAction → Except String Unit) (e : String) :
    (tool BuildAction.cmakeConfigure = Except.error e →
      runDelegated tool AxidevIoRecipe.buildActions = Except.error e) ∧
    (tool BuildAction.cmakeConfigure = Except.ok () →
      tool BuildAction.cmakeBuild = Except.error e →
      runDelegated tool AxidevIoRecipe.buildActions = Except.error e) ∧
    (tool BuildAction.cmakeInstall = Except.error e →
      runDelegated tool AxidevIoRecipe.packageActions = Except.error e) ∧
    (tool BuildAction.cmakeLayout = Except.error e →
      runDelegated tool AxidevIoRecipe.layoutActions = Except.error e) ∧
    (∀ r, runDelegated tool AxidevIoRecipe.buildActions = Except.error r →
      tool BuildAction.cmakeConfigure = Except.error r ∨
      tool BuildAction.cmakeBuild = Except.error r) := by
  refine ⟨?_, ?_, ?_, ?_, ?_⟩
  · intro h
    simp [AxidevIoRecipe.buildActions, runDelegated, h]
  · intro h₁ h₂
    simp [AxidevIoRecipe.buildActions, runDelegated, h₁, h₂]
  · intro h
    simp [AxidevIoRecipe.packageActions, runDelegated, h]
  · intro h
    simp [AxidevIoRecipe.layoutActions, runDelegated, h]
  · intro r h
    cases hc : tool BuildAction.cmakeConfigure with
    | error eCfg =>
      simp only [AxidevIoRecipe.buildActions, runDelegated, hc] at h
      exact Or.inl h
    | ok u =>
      cases hb : tool BuildAction.cmakeBuild with
      | error eBld =>
        simp only [AxidevIoRecipe.buildActions, runDelegated, hc, hb] at h
        exact Or.inr h
      | ok u' =>
        simp [AxidevIoRecipe.buildActions, runDelegated, hc, hb] at h

/-- C7 witness: a build tool whose configure step fails makes the whole
`build()` callback return that very error. -/
theorem spec_C7_error_propagation_witness :
    runDelegated (fun _ => Except.error "configure failed")
        AxidevIoRecipe.buildActions =
      Except.error "configure failed" :=
  (spec_C7_error_propagation
    (fun _ => Except.error "configure failed") "configure failed").1 rfl

/-- C8: `package_info` assigns exactly the three literal strings — the
libs entry "axidev_io", the `cmake_target_name` property "axidev::io"
and the `cmake_file_name` property "axidev-io" — and leaves every
other field of the metadata object, and every other property,
unchanged. -/
theorem spec_C8_package_info_frame (c : CppInfo) :
    (packageInfoCpp c).libs = ["axidev_io"] ∧
    (packageInfoCpp c).get_property "cmake_target_name" =
      some "axidev::io" ∧
    (packageInfoCpp c).get_property "cmake_file_name" =
      some "axidev-io" ∧
    (packageInfoCpp c).includedirs = c.includedirs ∧
    (packageInfoCpp c).libdirs = c.libdirs ∧
    (packageInfoCpp c).bindirs = c.bindirs ∧
    (packageInfoCpp c).system_libs = c.system_libs ∧
    (packageInfoCpp c).defines = c.defines ∧
    (packageInfoCpp c).cflags = c.cflags ∧
    (packageInfoCpp c).cxxflags = c.cxxflags ∧
    (packageInfoCpp c).sharedlinkflags = c.sharedlinkflags ∧
    (packageInfoCpp c).exelinkflags = c.exelinkflags ∧
    (packageInfoCpp c).frameworks = c.frameworks ∧
    (∀ k, k ≠ "cmake_target_name" → k ≠ "cmake_file_name" →
      (packageInfoCpp c).get_property k = c.get_property k) :=
  ⟨packageInfoCpp_libs c, packageInfoCpp_target c, packageInfoCpp_file c,
    rfl, rfl, rfl, rfl, rfl, rfl, rfl, rfl, rfl, rfl,
    fun k h₁ h₂ => packageInfoCpp_other c k h₁ h₂⟩

/-- C8 witness: on a fresh metadata object the libs entry is set and an
unrelated property stays untouched. -/
theorem spec_C8_package_info_frame_witness :
    (packageInfoCpp CppInfo.fresh).libs = ["axidev_io"] ∧
    (packageInfoCpp CppInfo.fresh).get_property "pkg_config_name" =
      CppInfo.fresh.get_property "pkg_config_name" := by
  have h := spec_C8_package_info_frame CppInfo.fresh
  exact ⟨h.1,
    h.2.2.2.2.2.2.2.2.2.2.2.2.2 "pkg_config_name" (by decide) (by decide)⟩

/-- C9: the recipe is stateless across invocations: `package_info` run
on any two freshly constructed recipe objects yields equal results,
and the published metadata (libs list and the two CMake properties) is
the same regardless of the metadata object it starts from, since the
published values are literals. -/
theorem spec_C9_stateless (r₁ r₂ : Recipe)
    (h₁ : r₁ = AxidevIoRecipe.fresh) (h₂ : r₂ = AxidevIoRecipe.fresh) :
    AxidevIoRecipe.package_info r₁ = AxidevIoRecipe.package_info r₂ ∧
    (∀ c₁ c₂ : CppInfo,
      (packageInfoCpp c₁).libs = (packageInfoCpp c₂).libs ∧
      (packageInfoCpp c₁).get_property "cmake_target_name" =
        (packageInfoCpp c₂).get_property "cmake_target_name" ∧
      (packageInfoCpp c₁).get_property "cmake_file_name" =
        (packageInfoCpp c₂).get_property "cmake_file_name") := by
  subst h₁
  subst h₂
  refine ⟨rfl, fun c₁ c₂ => ⟨?_, ?_, ?_⟩⟩
  · rw [packageInfoCpp_libs, packageInfoCpp_libs]
  · rw [packageInfoCpp_target, packageInfoCpp_target]
  · rw [packageInfoCpp_file, packageInfoCpp_file]

/-- C9 witness: two fresh recipe objects publish identical metadata. -/
theorem spec_C9_stateless_witness :
    AxidevIoRecipe.package_info AxidevIoRecipe.fresh =
      AxidevIoRecipe.package_info AxidevIoRecipe.fresh :=
  (spec_C9_stateless AxidevIoRecipe.fresh AxidevIoRecipe.fresh rfl rfl).1

/-- C10: the `cmake_file_name` property set by `package_info` equals
the recipe's `name` attribute, and `cpp_info.libs` contains exactly
one entry. -/
theorem spec_C10_file_name_is_recipe_name (c : CppInfo) :
    (packageInfoCpp c).get_property "cmake_file_name" =
      some AxidevIoRecipe.fresh.name ∧
    (packageInfoCpp c).libs.length = 1 :=
  ⟨(packageInfoCpp_file c).trans (by rfl), by simp [packageInfoCpp_libs]⟩

/-- C10 witness: evaluated on a fresh metadata object. -/
theorem spec_C10_file_name_is_recipe_name_witness :
    (packageInfoCpp CppInfo.fresh).get_property "cmake_file_name" =
      some AxidevIoRecipe.fresh.name :=
  (spec_C10_file_name_is_recipe_name CppInfo.fresh).1
